import Mathlib

/-!
Verification development for the Help Scout MCP server core:
shallow embedding of the cache (`src/utils/cache.ts`), the docs HTTP
client (`src/utils/helpscout-docs-client.ts`), the site/collection
resolvers (`src/utils/site-resolver.ts`, `src/utils/collection-resolver.ts`)
and the reports response unwrapper (`src/utils/reports-api-client.ts`),
together with proofs and refutations of the specification's claims.

Strings are treated as sequences of Unicode scalar values; every string
the repository feeds into the functions below is ASCII, where JavaScript
`length` / `toLowerCase` / UTF-8 encoding agree with Lean's.
-/

/-- JavaScript truthiness of an optional string field: `undefined`, `null`
and the empty string are falsy. -/
def optTruthy : Option String → Bool
  | none => false
  | some s => s ≠ ""

/-- JavaScript `toLowerCase` on the strings in scope (character-wise
lowering, which agrees with JavaScript on ASCII). -/
def jsToLower (s : String) : String :=
  String.mk (s.data.map Char.toLower)

/-- Boolean infix test used to translate JavaScript `hay.includes(sub)`
(substring containment, `true` on the empty needle). -/
def listContainsSub (sub : List Char) : List Char → Bool
  | [] => sub.isEmpty
  | c :: rest => sub.isPrefixOf (c :: rest) || listContainsSub sub rest

/-- Translation of JavaScript `hay.includes(sub)`. -/
def jsIncludes (hay sub : String) : Bool :=
  listContainsSub sub.data hay.data

/-- Characters matched by the regular expression class `\s` (ASCII part). -/
def isJsWhitespace (c : Char) : Bool :=
  c = ' ' || c = '\t' || c = '\n' || c = '\r' || c = '\x0b' || c = '\x0c'

/-- Worker for `jsSplitRuns`: splits a character list at each maximal run of
separator characters, as JavaScript `split(/p+/)` does.  The fuel argument
(the list length at the top call) only serves termination. -/
def jsSplitRunsGo (p : Char → Bool) : Nat → List Char → List Char → List (List Char)
  | _, [], acc => [acc.reverse]
  | 0, _ :: _, acc => [acc.reverse]
  | fuel + 1, c :: cs, acc =>
    if p c then acc.reverse :: jsSplitRunsGo p fuel (cs.dropWhile p) []
    else jsSplitRunsGo p fuel cs (c :: acc)

/-- Translation of JavaScript `s.split(/\s+/)`-style splitting: each maximal
run of characters satisfying `p` is one separator; leading and trailing
separators contribute empty fragments, as in JavaScript. -/
def jsSplitRuns (p : Char → Bool) (s : String) : List String :=
  (jsSplitRunsGo p s.data.length s.data []).map (fun l => String.mk l)

/-- Translation of JavaScript `s.split(/\s+/)`. -/
def jsSplitWs (s : String) : List String :=
  jsSplitRuns isJsWhitespace s

/-- Translation of JavaScript `s.split(/[-_]/)` (single-character class,
no run collapsing): Lean's `String.split` has exactly this behaviour. -/
def jsSplitHyphenUnderscore (s : String) : List String :=
  s.split (fun c => c = '-' || c = '_')

/-! ## JSON values

`JsonVal` models the JavaScript values the repository passes around as
cache parameters and upstream response bodies.  Objects are ordered lists
of fields because JavaScript objects remember insertion order and
`JSON.stringify` serialises fields in that order.  `undefined` models
JavaScript `undefined` (an omitted `params` argument, an absent field). -/

inductive JsonVal : Type where
  | null : JsonVal
  | undefined : JsonVal
  | bool : Bool → JsonVal
  | num : Int → JsonVal
  | str : String → JsonVal
  | arr : List JsonVal → JsonVal
  | obj : List (String × JsonVal) → JsonVal

/-- JavaScript truthiness of a `JsonVal` (`NaN` is not modelled; no code
path in scope produces it). -/
def jsTruthyVal : JsonVal → Bool
  | .null => false
  | .undefined => false
  | .bool b => b
  | .num n => n ≠ 0
  | .str s => s ≠ ""
  | .arr _ => true
  | .obj _ => true

/-- `typeof v === "object"` in JavaScript: true for objects, arrays and
`null`. -/
def isObjectType : JsonVal → Bool
  | .null => true
  | .arr _ => true
  | .obj _ => true
  | _ => false

/-- First field of the given name, as JavaScript property lookup on an
object literal (duplicate keys cannot arise from parsed JSON). -/
def lookupField (fs : List (String × JsonVal)) (k : String) : Option JsonVal :=
  (fs.find? (fun p => p.1 == k)).map (fun p => p.2)

/-- Translation of the JavaScript `k in v` test for the string keys the
client inspects (arrays carry none of the inspected keys). -/
def hasKey (v : JsonVal) (k : String) : Bool :=
  match v with
  | .obj fs => (lookupField fs k).isSome
  | _ => false

/-- JavaScript `v.k`: the field's value, or `undefined` when absent or when
`v` is not an object. -/
def getFieldJs (v : JsonVal) (k : String) : JsonVal :=
  match v with
  | .obj fs => (lookupField fs k).getD .undefined
  | _ => .undefined

/-- One hexadecimal digit. -/
def hexDigit (n : Nat) : Char :=
  ("0123456789abcdef".data.getD n '0')

/-- Four hexadecimal digits (for `\uXXXX` escapes). -/
def hex4 (n : Nat) : String :=
  String.mk [hexDigit ((n >>> 12) % 16), hexDigit ((n >>> 8) % 16),
             hexDigit ((n >>> 4) % 16), hexDigit (n % 16)]

/-- `JSON.stringify` escaping of one character inside a string literal. -/
def jsonEscapeChar (c : Char) : String :=
  if c = '"' then "\\\""
  else if c = '\\' then "\\\\"
  else if c = '\n' then "\\n"
  else if c = '\r' then "\\r"
  else if c = '\t' then "\\t"
  else if c = '\x08' then "\\b"
  else if c = '\x0c' then "\\f"
  else if c.toNat < 32 then "\\u" ++ hex4 c.toNat
  else String.mk [c]

/-- `JSON.stringify` rendering of a string. -/
def jsonEscape (s : String) : String :=
  "\"" ++ String.join (s.data.map jsonEscapeChar) ++ "\""

mutual

/-- Translation of `JSON.stringify` on the modelled values: object fields in
insertion order, `undefined` fields dropped, `undefined` array elements
rendered as `null`. -/
def jsonStringify : JsonVal → String
  | .null => "null"
  | .undefined => "null"
  | .bool true => "true"
  | .bool false => "false"
  | .num n => toString n
  | .str s => jsonEscape s
  | .arr xs => "[" ++ jsonStringifyArr xs ++ "]"
  | .obj fs => "\x7b" ++ jsonStringifyObj fs ++ "\x7d"

/-- Array elements, comma separated (`undefined` becomes `null`). -/
def jsonStringifyArr : List JsonVal → String
  | [] => ""
  | [x] => jsonStringify x
  | x :: y :: rest => jsonStringify x ++ "," ++ jsonStringifyArr (y :: rest)

/-- Object fields, comma separated, fields with `undefined` values dropped. -/
def jsonStringifyObj : List (String × JsonVal) → String
  | [] => ""
  | (k, v) :: rest =>
    match v with
    | .undefined => jsonStringifyObj rest
    | _ =>
      let fld := jsonEscape k ++ ":" ++ jsonStringify v
      let tail := jsonStringifyObj rest
      if tail = "" then fld else fld ++ "," ++ tail

end

/-! ## SHA-256

`Cache.generateKey` digests `JSON.stringify({ prefix, data })` with
Node's `crypto.createHash('sha256')`.  The hash is reproduced here over
byte lists (all inputs in scope are ASCII). -/

/-- Truncation to a 32-bit word. -/
def w32 (n : Nat) : Nat := n % 4294967296

/-- 32-bit right rotation. -/
def rotr32 (n x : Nat) : Nat := w32 ((x >>> n) ||| (x <<< (32 - n)))

/-- SHA-256 round constants (the fractional parts of the cube roots of
the first 64 primes, as 32-bit words, written in decimal). -/
def sha256K : List Nat :=
  [1116352408, 1899447441, 3049323471, 3921009573, 961987163, 1508970993,
   2453635748, 2870763221, 3624381080, 310598401, 607225278, 1426881987,
   1925078388, 2162078206, 2614888103, 3248222580, 3835390401, 4022224774,
   264347078, 604807628, 770255983, 1249150122, 1555081692, 1996064986,
   2554220882, 2821834349, 2952996808, 3210313671, 3336571891, 3584528711,
   113926993, 338241895, 666307205, 773529912, 1294757372, 1396182291,
   1695183700, 1986661051, 2177026350, 2456956037, 2730485921, 2820302411,
   3259730800, 3345764771, 3516065817, 3600352804, 4094571909, 275423344,
   430227734, 506948616, 659060556, 883997877, 958139571, 1322822218,
   1537002063, 1747873779, 1955562222, 2024104815, 2227730452, 2361852424,
   2428436474, 2756734187, 3204031479, 3329325298]

/-- SHA-256 initial hash state (in decimal). -/
def sha256H0 : List Nat :=
  [1779033703, 3144134277, 1013904242, 2773480762,
   1359893119, 2600822924, 528734635, 1541459225]

/-- Message padding: `0x80`, zeros to 56 mod 64, then the bit length in
8 big-endian bytes. -/
def sha256pad (msg : List Nat) : List Nat :=
  let len := msg.length
  let zeros := (119 - len % 64) % 64
  msg ++ [0x80] ++ List.replicate zeros 0 ++
    ((List.range 8).map (fun i => (len * 8) >>> ((7 - i) * 8) % 256))

/-- 64-byte chunks of the padded message. -/
def chunks64Go : Nat → List Nat → List (List Nat)
  | 0, _ => []
  | _, [] => []
  | fuel + 1, l@(_ :: _) => l.take 64 :: chunks64Go fuel (l.drop 64)

/-- Split a byte list into 64-byte chunks. -/
def chunks64 (l : List Nat) : List (List Nat) := chunks64Go l.length l

/-- Big-endian 32-bit words of one 64-byte chunk. -/
def chunkWords (chunk : List Nat) : List Nat :=
  (List.range 16).map (fun i =>
    (chunk.getD (4 * i) 0) <<< 24 ||| (chunk.getD (4 * i + 1) 0) <<< 16 |||
    (chunk.getD (4 * i + 2) 0) <<< 8 ||| chunk.getD (4 * i + 3) 0)

/-- SHA-256 small sigma 0. -/
def ssig0 (x : Nat) : Nat := rotr32 7 x ^^^ rotr32 18 x ^^^ (x >>> 3)

/-- SHA-256 small sigma 1. -/
def ssig1 (x : Nat) : Nat := rotr32 17 x ^^^ rotr32 19 x ^^^ (x >>> 10)

/-- SHA-256 big sigma 0. -/
def bsig0 (x : Nat) : Nat := rotr32 2 x ^^^ rotr32 13 x ^^^ rotr32 22 x

/-- SHA-256 big sigma 1. -/
def bsig1 (x : Nat) : Nat := rotr32 6 x ^^^ rotr32 11 x ^^^ rotr32 25 x

/-- Extension of the 16 chunk words to the 64-entry message schedule. -/
def sha256extend (ws : Array Nat) : Array Nat :=
  (List.range 48).foldl
    (fun w i =>
      let j := i + 16
      w.push (w32 (ssig1 (w.getD (j - 2) 0) + w.getD (j - 7) 0 +
                   ssig0 (w.getD (j - 15) 0) + w.getD (j - 16) 0)))
    ws

/-- One SHA-256 compression step. -/
def sha256round (st : Nat × Nat × Nat × Nat × Nat × Nat × Nat × Nat) (kw : Nat × Nat) :
    Nat × Nat × Nat × Nat × Nat × Nat × Nat × Nat :=
  let (a, b, c, d, e, f, g, hh) := st
  let (k, w) := kw
  let ch := (e &&& f) ^^^ ((e ^^^ 0xffffffff) &&& g)
  let maj := (a &&& b) ^^^ (a &&& c) ^^^ (b &&& c)
  let t1 := w32 (hh + bsig1 e + ch + k + w)
  let t2 := w32 (bsig0 a + maj)
  (w32 (t1 + t2), a, b, c, w32 (d + t1), e, f, g)

/-- Compression of one 64-byte chunk into the running hash. -/
def sha256compress (hs : List Nat) (chunk : List Nat) : List Nat :=
  let w := sha256extend (chunkWords chunk).toArray
  let init := (hs.getD 0 0, hs.getD 1 0, hs.getD 2 0, hs.getD 3 0,
               hs.getD 4 0, hs.getD 5 0, hs.getD 6 0, hs.getD 7 0)
  let (a, b, c, d, e, f, g, hh) := (sha256K.zip w.toList).foldl sha256round init
  [w32 (hs.getD 0 0 + a), w32 (hs.getD 1 0 + b), w32 (hs.getD 2 0 + c),
   w32 (hs.getD 3 0 + d), w32 (hs.getD 4 0 + e), w32 (hs.getD 5 0 + f),
   w32 (hs.getD 6 0 + g), w32 (hs.getD 7 0 + hh)]

/-- Eight hexadecimal digits of a 32-bit word. -/
def hex8 (n : Nat) : String :=
  String.mk ((List.range 8).map (fun i => hexDigit ((n >>> ((7 - i) * 4)) % 16)))

/-- SHA-256 digest of a byte list, in lowercase hex. -/
def sha256hexBytes (msg : List Nat) : String :=
  String.join (((chunks64 (sha256pad msg)).foldl sha256compress sha256H0).map hex8)

/-- SHA-256 hex digest of an ASCII string (byte values are the scalar
values; all strings fed to the cache in this repository are ASCII). -/
def sha256hex (s : String) : String :=
  sha256hexBytes (s.data.map Char.toNat)

/-! ## Cache (`src/utils/cache.ts` with `lru-cache` semantics)

State of the `Cache` class: the configured default TTL in milliseconds
(`config.cache.ttlSeconds * 1000`), the capacity bound, and the entries
in most-recently-used-first order.  An `lru-cache` entry with TTL `0`
never expires; a positive TTL expires once the entry's age reaches it. -/

structure CacheEntry where
  key : String
  value : JsonVal
  start : Nat
  ttl : Nat

structure CacheState where
  defaultTtl : Nat
  maxSize : Nat
  entries : List CacheEntry

namespace Cache

/-- Translation of `Cache.generateKey`: the SHA-256 hex digest of
`JSON.stringify({ prefix, data })`. -/
def generateKey (pfx : String) (data : JsonVal) : String :=
  sha256hex (jsonStringify (.obj [("prefix", .str pfx), ("data", data)]))

/-- Freshness test of an entry at time `now` (`lru-cache`: TTL `0` means no
expiry, otherwise the entry is stale once its age reaches the TTL). -/
def entryFresh (now : Nat) (e : CacheEntry) : Bool :=
  e.ttl == 0 || decide (now < e.start + e.ttl)

/-- Translation of `Cache.get`: hash the key, return the stored value when
present and fresh (promoting it to most recently used), drop a stale entry,
report a miss otherwise. -/
def get (st : CacheState) (pfx : String) (data : JsonVal) (now : Nat) :
    Option JsonVal × CacheState :=
  let key := generateKey pfx data
  match st.entries.find? (fun e => e.key == key) with
  | none => (none, st)
  | some e =>
    if entryFresh now e then
      (some e.value, { st with entries := e :: st.entries.filter (fun x => !(x.key == key)) })
    else
      (none, { st with entries := st.entries.filter (fun x => !(x.key == key)) })

/-- Translation of `Cache.set`: the stored TTL is `options.ttl * 1000` when
`options?.ttl` is truthy — so an explicit `ttl: 0` falls back to the
cache-wide default, exactly as the JavaScript conditional does — and the
new entry becomes most recently used, evicting beyond capacity. -/
def set (st : CacheState) (pfx : String) (data : JsonVal) (value : JsonVal)
    (opts : Option Nat) (now : Nat) : CacheState :=
  let key := generateKey pfx data
  let ttl := match opts with
    | some t => if t ≠ 0 then t * 1000 else st.defaultTtl
    | none => st.defaultTtl
  { st with entries := (⟨key, value, now, ttl⟩ :: st.entries.filter (fun x => !(x.key == key))).take st.maxSize }

/-- Translation of `Cache.clear`: with a namespace argument the source
iterates over every key and deletes it (the documented limitation), so
both forms empty the store. -/
def clear (st : CacheState) (pfx : Option String) : CacheState :=
  match pfx with
  | some _ => { st with entries := [] }
  | none => { st with entries := [] }

end Cache

/-- TTL recorded for a key, for reasoning about what `Cache.set` stored. -/
def storedTtl (st : CacheState) (key : String) : Option Nat :=
  (st.entries.find? (fun e => e.key == key)).map (fun e => e.ttl)

/-! ## Retry engine (`HelpScoutDocsClient.executeWithRetry`) -/

/-- The part of an Axios error response the retry engine inspects: the HTTP
status and the `retry-after` header.  A header carrying a decimal number is
modelled as its value, an absent header as `none` (the source reads
`headers['retry-after'] || '60'` and applies `parseInt`). -/
structure AxiosResponseInfo where
  status : Nat
  retryAfterHeader : Option Nat
deriving DecidableEq

/-- An Axios error: `response` is absent on network failures, `code` is the
Node error code (`'ECONNABORTED'` on timeout). -/
structure AxiosErr where
  response : Option AxiosResponseInfo
  code : Option String
  message : String
deriving DecidableEq

/-- Translation of the default `retryCondition`: network errors, timeouts,
5xx responses and 429 are retryable. -/
def defaultRetryCondition (e : AxiosErr) : Bool :=
  e.response.isNone || e.code == some "ECONNABORTED" ||
    (match e.response with
     | some r => (decide (500 ≤ r.status) && decide (r.status < 600)) || r.status == 429
     | none => false)

/-- Translation of the `RetryConfig` interface; `retryCondition` is an
optional field, and `executeWithRetry` treats a missing one as
non-retryable (`!retryConfig.retryCondition?.(lastError)`). -/
structure RetryConfig where
  retries : Nat
  retryDelay : Nat
  maxRetryDelay : Nat
  retryCondition : Option (AxiosErr → Bool)

/-- The client's `defaultRetryConfig`: 3 retries, 1 s base delay, 10 s cap. -/
def defaultRetryConfig : RetryConfig :=
  ⟨3, 1000, 10000, some defaultRetryCondition⟩

/-- Translation of `calculateRetryDelay`: exponential backoff capped at
`maxDelay`; the jitter (`Math.random() * 0.1 * exponentialDelay`) is
passed in as an oracle value. -/
def calculateRetryDelay (attempt baseDelay maxDelay : Nat) (jitter : ℚ) : ℚ :=
  min (((baseDelay * 2 ^ attempt : Nat) : ℚ) + jitter) (maxDelay : ℚ)

/-- Delay slept before the next attempt after a retryable failure: the
rate-limit branch uses `min(parseInt(headers['retry-after'] || '60') * 1000,
maxRetryDelay)`, every other branch the exponential backoff. -/
def retrySleep (cfg : RetryConfig) (attempt : Nat) (e : AxiosErr) (jitter : ℚ) : ℚ :=
  match e.response with
  | some r =>
    if r.status == 429 then
      min ((((r.retryAfterHeader.getD 60) * 1000 : Nat)) : ℚ) ((cfg.maxRetryDelay : Nat) : ℚ)
    else calculateRetryDelay attempt cfg.retryDelay cfg.maxRetryDelay jitter
  | none => calculateRetryDelay attempt cfg.retryDelay cfg.maxRetryDelay jitter

/-- The fallback error of the unreachable `throw lastError || new Error(...)`
line at the end of `executeWithRetry`. -/
def noDetailsErr : AxiosErr :=
  ⟨none, none, "Request failed without error details"⟩

/-- Worker for `executeWithRetry`.  `op i` is the outcome of attempt `i`
(the `operation()` promise), `jit i` the jitter drawn on attempt `i`; the
result collects the number of attempts made, the delays slept, and the
final outcome.  The fuel starts at `retries + 1` and the zero-fuel branch
mirrors the unreachable fallback `throw`. -/
def runRetry {α : Type} (cfg : RetryConfig) (op : Nat → Except AxiosErr α)
    (jit : Nat → ℚ) : Nat → Nat → Nat × List ℚ × Except AxiosErr α
  | 0, _ => (0, [], .error noDetailsErr)
  | fuel + 1, attempt =>
    match op attempt with
    | .ok v => (1, [], .ok v)
    | .error e =>
      if attempt == cfg.retries then (1, [], .error e)
      else if !((cfg.retryCondition.map (fun f => f e)).getD false) then (1, [], .error e)
      else
        let rest := runRetry cfg op jit fuel (attempt + 1)
        (rest.1 + 1, retrySleep cfg attempt e (jit attempt) :: rest.2.1, rest.2.2)

/-- Translation of `executeWithRetry`: the loop runs attempts
`0 .. cfg.retries`. -/
def executeWithRetry {α : Type} (cfg : RetryConfig) (op : Nat → Except AxiosErr α)
    (jit : Nat → ℚ) : Nat × List ℚ × Except AxiosErr α :=
  runRetry cfg op jit (cfg.retries + 1) 0

/-! ## Docs HTTP client operations (`HelpScoutDocsClient`) -/

/-- Translation of `getDefaultCacheTtl` (seconds, per endpoint family). -/
def getDefaultCacheTtl (endpoint : String) : Nat :=
  if jsIncludes endpoint "/articles" then 600
  else if jsIncludes endpoint "/collections" then 1440
  else if jsIncludes endpoint "/categories" then 1440
  else if jsIncludes endpoint "/sites" then 1440
  else 600

/-- Translation of the sequential response-shape rewriting inside
`HelpScoutDocsClient.get` (the `/collections`, `/sites`, `/categories`
and `/articles` unwrapping blocks, in source order). -/
def unwrapDocsResponse (endpoint : String) (data0 : JsonVal) : JsonVal :=
  let data1 :=
    if endpoint == "/collections" && jsTruthyVal data0 && isObjectType data0 &&
        hasKey data0 "collections"
    then getFieldJs data0 "collections" else data0
  let data2 :=
    if endpoint == "/sites" && jsTruthyVal data1 && isObjectType data1 then
      if hasKey data1 "items" && hasKey data1 "page" && hasKey data1 "pages" &&
          hasKey data1 "count" then data1
      else if hasKey data1 "sites" then
        match getFieldJs data1 "sites" with
        | .arr xs =>
          .obj [("items", .arr xs),
                ("page", if jsTruthyVal (getFieldJs data1 "page")
                         then getFieldJs data1 "page" else .num 1),
                ("pages", if jsTruthyVal (getFieldJs data1 "pages")
                          then getFieldJs data1 "pages" else .num 1),
                ("count", if jsTruthyVal (getFieldJs data1 "count")
                          then getFieldJs data1 "count" else .num xs.length)]
        | s => if jsTruthyVal s && isObjectType s then s else data1
      else data1
    else data1
  let data3 :=
    if jsIncludes endpoint "/categories" && jsTruthyVal data2 && isObjectType data2 &&
        hasKey data2 "categories"
    then getFieldJs data2 "categories" else data2
  if jsIncludes endpoint "/articles" && jsTruthyVal data3 && isObjectType data3 &&
      hasKey data3 "articles"
  then getFieldJs data3 "articles" else data3

/-- Translation of `HelpScoutDocsClient.get` for a fetch that succeeds with
body `netData`: consult the cache first (a cached falsy value falls through
to a refetch, mirroring `if (cachedResult)`), otherwise rewrite the
response shape and store it — with the caller's TTL when `cacheOptions?.ttl`
is truthy or exactly `0`, else with the endpoint-family default. -/
def clientGet (endpoint : String) (params : JsonVal) (cacheTtl : Option Nat)
    (st : CacheState) (now : Nat) (netData : JsonVal) : JsonVal × CacheState :=
  let cacheKey := "DOCS:GET:" ++ endpoint
  let (cached, st1) := Cache.get st cacheKey params now
  let cachedTruthy := match cached with
    | some v => jsTruthyVal v
    | none => false
  if cachedTruthy then (cached.getD .undefined, st1)
  else
    let data := unwrapDocsResponse endpoint netData
    let st2 := match cacheTtl with
      | some t => Cache.set st1 cacheKey params data (some t) now
      | none => Cache.set st1 cacheKey params data (some (getDefaultCacheTtl endpoint)) now
    (data, st2)

/-- Translation of `endpoint.substring(0, endpoint.lastIndexOf('/'))`
(empty when no slash occurs, since `substring` clamps the negative index). -/
def parentEndpoint (endpoint : String) : String :=
  String.mk (((endpoint.data.reverse.dropWhile (fun c => c ≠ '/')).drop 1).reverse)

/-- The message of the guard in `HelpScoutDocsClient.delete` (two source
string literals concatenated). -/
def deletionDisabledMessage : String :=
  "Deletion operations are disabled by default for safety. " ++
  "Set HELPSCOUT_ALLOW_DOCS_DELETE=true to enable deletion operations."

/-- Outcome of a `delete` call: the raised error or success, the number of
network attempts made, and the resulting cache state. -/
structure DeleteOutcome where
  result : Except String Unit
  networkAttempts : Nat
  cacheAfter : CacheState

/-- Translation of `HelpScoutDocsClient.delete`: the confirmation guard
throws before any network call unless disabled; otherwise the HTTP DELETE
runs through the retry engine and, on success, the endpoint's and its
parent's cache namespaces are cleared. -/
def clientDelete (allowDocsDelete : Bool) (endpoint : String) (requireConfirmation : Bool)
    (st : CacheState) (net : Nat → Except AxiosErr JsonVal) (jit : Nat → ℚ) : DeleteOutcome :=
  if requireConfirmation && !allowDocsDelete then
    ⟨.error deletionDisabledMessage, 0, st⟩
  else
    let res := executeWithRetry defaultRetryConfig net jit
    match res.2.2 with
    | .error e => ⟨.error e.message, res.1, st⟩
    | .ok _ =>
      let st1 := Cache.clear st (some ("DOCS:GET:" ++ endpoint))
      let st2 := Cache.clear st1 (some ("DOCS:GET:" ++ parentEndpoint endpoint))
      ⟨.ok (), res.1, st2⟩

/-! ## Site resolver (`SiteResolver.resolveSite`)

The resolver's fields are modelled as the code reads them: `name`,
`subdomain` and `cname` are guarded by truthiness checks and optional
chaining, so they are `Option String` here. -/

structure DocsSite where
  id : String
  name : Option String
  subdomain : Option String
  cname : Option String
deriving DecidableEq

structure SiteMatch where
  site : DocsSite
  matchScore : ℚ
  matchReason : String
deriving DecidableEq

/-- The raw token list of the partial-word branch for sites: name split on
whitespace plus subdomain split on hyphen/underscore, lowercased. -/
def siteRawWords (site : DocsSite) : List String :=
  (match site.name with
   | some n => jsSplitWs (jsToLower n)
   | none => []) ++
  (match site.subdomain with
   | some sd => jsSplitHyphenUnderscore (jsToLower sd)
   | none => [])

/-- The site scorer's token list: raw words, keeping only words longer
than 2 characters (`filter(word => word.length > 2)`). -/
def siteWordsOf (site : DocsSite) : List String :=
  (siteRawWords site).filter (fun w => w.length > 2)

/-- Word-overlap test of the partial-match branches: an entity word matches
when some input word contains it or is contained in it. -/
def wordsMatching (entityWords inputWords : List String) : List String :=
  entityWords.filter (fun w => inputWords.any (fun iw => jsIncludes iw w || jsIncludes w iw))

/-- Translation of the per-site scoring chain in `resolveSite` (before the
default-site boost): first matching rule wins. -/
def scoreSiteTextual (normalizedInput : String) (site : DocsSite) : ℚ × String :=
  if optTruthy site.name && jsIncludes normalizedInput (jsToLower (site.name.getD "")) then
    (100, "Site name match: \"" ++ site.name.getD "" ++ "\"")
  else if optTruthy site.subdomain && jsIncludes normalizedInput (jsToLower (site.subdomain.getD "")) then
    (80, "Subdomain match: \"" ++ site.subdomain.getD "" ++ "\"")
  else if optTruthy site.cname && jsIncludes normalizedInput (jsToLower (site.cname.getD "")) then
    (70, "CNAME match: \"" ++ site.cname.getD "" ++ "\"")
  else
    let siteWords := siteWordsOf site
    let matchingWords := wordsMatching siteWords (jsSplitWs normalizedInput)
    if matchingWords.length > 0 then
      ((matchingWords.length : ℚ) / ((max siteWords.length 1 : Nat) : ℚ) * 50,
       "Partial match: " ++ String.intercalate ", " matchingWords)
    else (0, "")

/-- One candidate of `resolveSite`'s loop: textual score, default-site
boost, and the `matchScore > 0` admission filter. -/
def siteCandidate (normalizedInput : String) (defaultSiteId : Option String)
    (site : DocsSite) : Option SiteMatch :=
  let (s0, r0) := scoreSiteTextual normalizedInput site
  let isDefault := match defaultSiteId with
    | some did => did ≠ "" && site.id == did
    | none => false
  let (s1, r1) := if isDefault then (s0 + 10, r0 ++ " (default)") else (s0, r0)
  if s1 > 0 then some ⟨site, s1, r1⟩ else none

/-- Stable insertion into a list sorted by descending score (same order as
JavaScript's stable `sort((a, b) => b.matchScore - a.matchScore)`). -/
def insertByScoreDesc (m : SiteMatch) : List SiteMatch → List SiteMatch
  | [] => [m]
  | x :: xs => if m.matchScore ≥ x.matchScore then m :: x :: xs else x :: insertByScoreDesc m xs

/-- Stable sort by descending score. -/
def sortByScoreDesc : List SiteMatch → List SiteMatch
  | [] => []
  | m :: rest => insertByScoreDesc m (sortByScoreDesc rest)

/-- Translation of `SiteResolver.resolveSite` over a loaded site directory:
score every site, keep positive scores, sort descending and return the
best; with no positive candidate, fall back to the configured default site
when it exists in the directory. -/
def resolveSite (sites : List DocsSite) (input : String) (defaultSiteId : Option String) :
    Option SiteMatch :=
  let normalizedInput := (jsToLower input)
  let ms := sites.filterMap (siteCandidate normalizedInput defaultSiteId)
  match sortByScoreDesc ms with
  | m :: _ => some m
  | [] =>
    match defaultSiteId with
    | some did =>
      if did ≠ "" then
        match sites.find? (fun s => s.id == did) with
        | some d => some ⟨d, 10, "Default site"⟩
        | none => none
      else none
    | none => none

/-! ## Collection resolver scoring (`CollectionResolver.resolveCollection`) -/

structure DocsCollection where
  id : String
  siteId : String
  name : String
  slug : Option String
deriving DecidableEq

/-- Translation of the per-collection scoring chain in `resolveCollection`
(before the default-collection boost).  Note: unlike the site scorer, the
partial-word branch splits the collection name without any word-length
filter and divides by the unfiltered word count. -/
def scoreCollectionTextual (normalizedInput : String) (site : DocsSite)
    (coll : DocsCollection) : ℚ × String :=
  if jsIncludes normalizedInput (jsToLower coll.name) then
    (100, "Direct match: \"" ++ coll.name ++ "\"")
  else if optTruthy site.name && jsIncludes normalizedInput (jsToLower (site.name.getD "")) then
    (80, "Site match: \"" ++ site.name.getD "" ++ "\"")
  else if optTruthy site.subdomain && jsIncludes normalizedInput (jsToLower (site.subdomain.getD "")) then
    (70, "Subdomain match: \"" ++ site.subdomain.getD "" ++ "\"")
  else if optTruthy coll.slug && jsIncludes normalizedInput (jsToLower (coll.slug.getD "")) then
    (60, "Slug match: \"" ++ coll.slug.getD "" ++ "\"")
  else
    let collectionWords := jsSplitWs (jsToLower coll.name)
    let matchingWords := wordsMatching collectionWords (jsSplitWs normalizedInput)
    if matchingWords.length > 0 then
      ((matchingWords.length : ℚ) / ((collectionWords.length : Nat) : ℚ) * 50,
       "Partial match: " ++ String.intercalate ", " matchingWords)
    else (0, "")

/-- Modelled from the spec (§4.3, step 2, token-overlap rule): split the
entity's words, keep only words of length greater than 2, count those that
are substrings of an input word or vice versa, and score
matching / total × 50.  Stated for comparison with the implemented
scorers; the division is the field division of `ℚ` (0 when the filtered
word list is empty). -/
def specTokenOverlapScore (entityWords inputWords : List String) : ℚ :=
  let ws := entityWords.filter (fun w => w.length > 2)
  ((wordsMatching ws inputWords).length : ℚ) / (ws.length : ℚ) * 50

/-! ## Reports response unwrapper (`ReportsApiClient.getReport`) -/

/-- Translation of the response handling in `ReportsApiClient.getReport`,
given the raw body the wrapped client returned: bare strings raise (the
unknown-endpoint marker `"Unknown"` distinguishes a missing endpoint from
an unexpected shape), a `report` field is unwrapped, everything else is
passed through. -/
def getReport (endpoint : String) (response : JsonVal) : Except String JsonVal :=
  match response with
  | .str s =>
    if s == "Unknown URL" || jsIncludes s "Unknown" then
      .error ("Reports API endpoint not found: " ++ endpoint)
    else
      .error ("Unexpected string response from Reports API: " ++ s)
  | .obj fs =>
    if (lookupField fs "report").isSome then
      .ok ((lookupField fs "report").getD .undefined)
    else if hasKey (.obj fs) "current" || hasKey (.obj fs) "happinessScore" ||
        hasKey (.obj fs) "totalRatings" || hasKey (.obj fs) "greatCount" then
      .ok (.obj fs)
    else if hasKey (.obj fs) "_embedded" || hasKey (.obj fs) "items" ||
        hasKey (.obj fs) "results" then
      .ok (.obj fs)
    else .ok (.obj fs)
  | v => .ok v

/-! ## Shared lemmas -/

/-- The retry loop always makes at least one attempt when it has fuel. -/
theorem runRetry_attempts_pos {α : Type} (cfg : RetryConfig) (op : Nat → Except AxiosErr α)
    (jit : Nat → ℚ) (fuel attempt : Nat) :
    1 ≤ (runRetry cfg op jit (fuel + 1) attempt).1 := by
  cases hop : op attempt with
  | ok v => simp [runRetry, hop]
  | error e =>
    simp only [runRetry, hop]
    split
    · simp
    · split
      · simp
      · simp

/-! ## Claims -/

/-- C1.  With the operator-level deletions-allowed flag unset and
`requireConfirmation` left at its default `true`, `delete` raises the
safety error — whose message says how to enable deletions — with zero
network attempts and the cache unchanged, for every endpoint, cache state
and network behaviour. -/
theorem delete_blocked_without_flag (endpoint : String) (st : CacheState)
    (net : Nat → Except AxiosErr JsonVal) (jit : Nat → ℚ) :
    clientDelete false endpoint true st net jit =
      ⟨.error deletionDisabledMessage, 0, st⟩ ∧
    jsIncludes deletionDisabledMessage "Set HELPSCOUT_ALLOW_DOCS_DELETE=true" = true := by
  exact ⟨rfl, by decide⟩

/-- C2.  Under the default policy (`retries = 3`), an operation failing on
every attempt with a retryable error is attempted exactly 4 times, and the
error of the fourth (last) attempt is raised. -/
theorem retry_exhausts_after_four_attempts {α : Type} (op : Nat → Except AxiosErr α)
    (errs : Nat → AxiosErr) (jit : Nat → ℚ)
    (hop : ∀ i, op i = .error (errs i))
    (hretry : ∀ i, defaultRetryCondition (errs i) = true) :
    (executeWithRetry defaultRetryConfig op jit).1 = 4 ∧
    (executeWithRetry defaultRetryConfig op jit).2.2 = .error (errs 3) := by
  simp [executeWithRetry, runRetry, defaultRetryConfig,
    hop 0, hop 1, hop 2, hop 3, hretry 0, hretry 1, hretry 2]

/-- Witness for C2 at a concrete always-500 operation. -/
theorem retry_exhausts_after_four_attempts_witness :
    (executeWithRetry defaultRetryConfig
        (fun _ => (.error ⟨some ⟨500, none⟩, none, "ISE"⟩ : Except AxiosErr Unit))
        (fun _ => 0)).1 = 4 ∧
    (executeWithRetry defaultRetryConfig
        (fun _ => (.error ⟨some ⟨500, none⟩, none, "ISE"⟩ : Except AxiosErr Unit))
        (fun _ => 0)).2.2 = .error ⟨some ⟨500, none⟩, none, "ISE"⟩ :=
  by
  refine retry_exhausts_after_four_attempts
    (fun _ => (.error ⟨some ⟨500, none⟩, none, "ISE"⟩ : Except AxiosErr Unit))
    (fun _ => ⟨some ⟨500, none⟩, none, "ISE"⟩) (fun _ => 0)
    (fun _ => rfl) (fun _ => ?_)
  show defaultRetryCondition ⟨some ⟨500, none⟩, none, "ISE"⟩ = true
  decide

/-- C9.  With `requireConfirmation` explicitly `false`, `delete` proceeds
even though the deletions-allowed flag is unset: at least one network
attempt is always made, and when the DELETE succeeds the call returns
success after clearing the endpoint's and parent's cache namespaces (the
namespace-scoped clear empties the store). -/
theorem delete_bypass_with_confirmation_false (endpoint : String) (st : CacheState)
    (net netAny : Nat → Except AxiosErr JsonVal) (jit : Nat → ℚ) (v : JsonVal)
    (hnet : net 0 = .ok v) :
    1 ≤ (clientDelete false endpoint false st netAny jit).networkAttempts ∧
    clientDelete false endpoint false st net jit = ⟨.ok (), 1, { st with entries := [] }⟩ := by
  constructor
  · have h := runRetry_attempts_pos defaultRetryConfig netAny jit 3 0
    cases hres : (executeWithRetry defaultRetryConfig netAny jit).2.2 with
    | error e => simp [clientDelete, hres]; exact h
    | ok v => simp [clientDelete, hres]; exact h
  · simp [clientDelete, executeWithRetry, runRetry, hnet, Cache.clear]

/-- Witness for C9 at a concrete succeeding network operation. -/
theorem delete_bypass_with_confirmation_false_witness :
    1 ≤ (clientDelete false "/articles/1" false ⟨300000, 10000, []⟩
        (fun _ => .ok .null) (fun _ => 0)).networkAttempts ∧
    clientDelete false "/articles/1" false ⟨300000, 10000, []⟩
        (fun _ => .ok .null) (fun _ => 0) =
      ⟨.ok (), 1, { defaultTtl := 300000, maxSize := 10000, entries := [] }⟩ :=
  delete_bypass_with_confirmation_false "/articles/1" ⟨300000, 10000, []⟩
    (fun _ => .ok .null) (fun _ => .ok .null) (fun _ => 0) .null rfl

/-- C10.  After a 429 failure whose response carries no `retry-after`
header, the engine substitutes 60 seconds: the sleep is
`min 60000 maxRetryDelay` milliseconds for any policy and attempt, and
under the default policy the recorded wait before the next attempt is
exactly 10000 ms. -/
theorem rate_limit_default_wait {α : Type} (cfg : RetryConfig) (e : AxiosErr)
    (op : Nat → Except AxiosErr α) (jit : Nat → ℚ) (j : ℚ) (a : Nat)
    (hr : e.response = some ⟨429, none⟩) (hop : op 0 = .error e) :
    retrySleep cfg a e j = min (60000 : ℚ) ((cfg.maxRetryDelay : Nat) : ℚ) ∧
    (executeWithRetry defaultRetryConfig op jit).2.1.head? = some (10000 : ℚ) := by
  have hcond : defaultRetryCondition e = true := by
    simp [defaultRetryCondition, hr]
  have hsleep : ∀ (cfg' : RetryConfig) (a' : Nat) (j' : ℚ),
      retrySleep cfg' a' e j' = min (60000 : ℚ) ((cfg'.maxRetryDelay : Nat) : ℚ) := by
    intro cfg' a' j'
    simp [retrySleep, hr]
  refine ⟨hsleep cfg a j, ?_⟩
  have h10 : min (60000 : ℚ) (((10000 : Nat) : Nat) : ℚ) = (10000 : ℚ) := by
    norm_num
  simp [executeWithRetry, runRetry, hop, hcond, defaultRetryConfig, hsleep, h10]
  norm_num

/-- Witness for C10 at a concrete 429 failure without a header. -/
theorem rate_limit_default_wait_witness :
    retrySleep defaultRetryConfig 0 ⟨some ⟨429, none⟩, none, "RL"⟩ 0 =
      min (60000 : ℚ) ((defaultRetryConfig.maxRetryDelay : Nat) : ℚ) ∧
    (executeWithRetry defaultRetryConfig
        (fun _ => (.error ⟨some ⟨429, none⟩, none, "RL"⟩ : Except AxiosErr Unit))
        (fun _ => 0)).2.1.head? = some (10000 : ℚ) :=
  rate_limit_default_wait defaultRetryConfig ⟨some ⟨429, none⟩, none, "RL"⟩
    (fun _ => (.error ⟨some ⟨429, none⟩, none, "RL"⟩ : Except AxiosErr Unit))
    (fun _ => 0) 0 0 rfl rfl

/-- A just-inserted entry is always fresh at its insertion time. -/
theorem fresh_at_insert_time (now t : Nat) : (t == 0 || decide (now < now + t)) = true := by
  cases t with
  | zero => simp
  | succ k => simp

/-- C3 (the code's actual behaviour at the claim's failing input).  A `get`
with a caller-specified TTL of exactly `0` stores the fetched value with
the cache-wide default TTL `d`, not with a TTL of 0: the client forwards
`{ ttl: 0 }`, but `Cache.set`'s truthiness test discards the zero. -/
theorem ttl_zero_override_stores_default (endpoint : String) (params netData : JsonVal)
    (d m now : Nat) :
    storedTtl ((clientGet endpoint params (some 0) ⟨d, m + 1, []⟩ now netData).2)
      (Cache.generateKey ("DOCS:GET:" ++ endpoint) params) = some d := by
  simp [clientGet, Cache.get, Cache.set, storedTtl]

set_option maxRecDepth 4000 in
/-- C4 counterexample.  Two value-equal parameter objects that differ only
in property insertion order hash to different cache keys: `JSON.stringify`
serialises fields in insertion order and `generateKey` does not normalise
them. -/
theorem cache_key_insertion_order_sensitive :
    Cache.generateKey "DOCS:GET:/sites" (.obj [("page", .num 1), ("pageSize", .num 100)]) ≠
    Cache.generateKey "DOCS:GET:/sites" (.obj [("pageSize", .num 100), ("page", .num 1)]) := by
  decide

/-- C4 as amended.  Key generation is deterministic in the serialised
parameters — `get` and `set` apply the same digest to the same
`(namespace, params)` pair — so a value stored under a params object is
retrievable under that same object; order-insensitivity does not hold
(see the counterexample). -/
theorem cache_set_get_roundtrip (d m : Nat) (es : List CacheEntry) (pfx : String)
    (data v : JsonVal) (opts : Option Nat) (now : Nat) :
    (Cache.get (Cache.set ⟨d, m + 1, es⟩ pfx data v opts now) pfx data now).1 = some v := by
  have hcond : ∀ x : Nat, x = 0 ∨ 0 < x := fun x => Nat.eq_zero_or_pos x
  simp [Cache.get, Cache.set, Cache.entryFresh, hcond]

/-- C5.  The cache operations are total functions with no error channel
(the source methods contain no `throw`), and every fetch failure surfaces
as a miss: a lookup after either form of `clear` returns `none`, and a
lookup of an entry whose TTL has elapsed returns `none` rather than an
error. -/
theorem cache_failures_behave_as_miss (st : CacheState) (pfx : String) (data v : JsonVal)
    (now t d m : Nat) (es : List CacheEntry) (ht : t ≠ 0) :
    (Cache.get (Cache.clear st (some pfx)) pfx data now).1 = none ∧
    (Cache.get (Cache.clear st none) pfx data now).1 = none ∧
    (Cache.get (Cache.set ⟨d, m + 1, es⟩ pfx data v (some t) now) pfx data
        (now + t * 1000)).1 = none := by
  refine ⟨by simp [Cache.get, Cache.clear], by simp [Cache.get, Cache.clear], ?_⟩
  have htt : ¬ (t * 1000 = 0 ∨ now + t * 1000 < now + t * 1000) := by
    rintro (h | h)
    · exact ht (by omega)
    · omega
  simp [Cache.get, Cache.set, Cache.entryFresh, ht, htt]

/-- Witness for C5 at concrete inputs (TTL 600 s, lookup 600 000 ms after
insertion). -/
theorem cache_failures_behave_as_miss_witness :
    (Cache.get (Cache.clear ⟨300000, 10000, []⟩ (some "DOCS:GET:/sites")) "DOCS:GET:/sites"
        .null 0).1 = none ∧
    (Cache.get (Cache.clear ⟨300000, 10000, []⟩ none) "DOCS:GET:/sites" .null 0).1 = none ∧
    (Cache.get (Cache.set ⟨300000, 9999 + 1, []⟩ "DOCS:GET:/sites" .null .null (some 600) 0)
        "DOCS:GET:/sites" .null (0 + 600 * 1000)).1 = none :=
  cache_failures_behave_as_miss ⟨300000, 10000, []⟩ "DOCS:GET:/sites" .null .null 0 600
    300000 9999 [] (by decide)

/-- A site whose textual score is 0 also has an empty match reason (every
scoring branch that sets a reason sets a positive score). -/
theorem scoreSiteTextual_zero_reason (input : String) (s : DocsSite)
    (h : (scoreSiteTextual input s).1 = 0) : scoreSiteTextual input s = (0, "") := by
  by_cases h1 : (optTruthy s.name && jsIncludes input (jsToLower (s.name.getD ""))) = true
  · simp [scoreSiteTextual, h1] at h
  by_cases h2 : (optTruthy s.subdomain && jsIncludes input (jsToLower (s.subdomain.getD ""))) = true
  · simp [scoreSiteTextual, h1, h2] at h
  by_cases h3 : (optTruthy s.cname && jsIncludes input (jsToLower (s.cname.getD ""))) = true
  · simp [scoreSiteTextual, h1, h2, h3] at h
  by_cases h4 : (wordsMatching (siteWordsOf s) (jsSplitWs input)).length > 0
  · exfalso
    have hm : (0:ℚ) < ((wordsMatching (siteWordsOf s) (jsSplitWs input)).length : ℚ) := by
      exact_mod_cast h4
    have hd : (0:ℚ) < ((max (siteWordsOf s).length 1 : Nat) : ℚ) := by
      have hx : 0 < max (siteWordsOf s).length 1 := by omega
      exact_mod_cast hx
    simp [scoreSiteTextual, h1, h2, h3, h4] at h
    rcases h with h | h
    · rw [h] at hm
      simp at hm
    · have hone : (1:ℚ) ≤ ((siteWordsOf s).length : ℚ) ⊔ 1 := le_max_right _ _
      rw [h] at hone
      norm_num at hone
  · simp [scoreSiteTextual, h1, h2, h3, h4]

/-- Under an all-zero textual score, a site becomes a candidate exactly
when it is the configured default, with score 10 and reason " (default)". -/
theorem siteCandidate_of_zero_score (input did : String) (hd : did ≠ "")
    (s : DocsSite) (hs : (scoreSiteTextual input s).1 = 0) :
    siteCandidate input (some did) s =
      if s.id == did then some ⟨s, 10, " (default)"⟩ else none := by
  have h0 := scoreSiteTextual_zero_reason input s hs
  by_cases hid : (s.id == did) = true
  · have happ : ("" ++ " (default)" : String) = " (default)" := rfl
    simp [siteCandidate, h0, hd, hid, happ]
  · simp [siteCandidate, h0, hd, hid]

/-- Under an all-zero textual score, the candidate list is the default
sites, each carried with score 10 and reason " (default)". -/
theorem filterMap_candidates_of_zero (input did : String) (hd : did ≠ "")
    (sites : List DocsSite) (hs : ∀ s ∈ sites, (scoreSiteTextual input s).1 = 0) :
    sites.filterMap (siteCandidate input (some did)) =
      (sites.filter (fun s => s.id == did)).map (fun s => ⟨s, 10, " (default)"⟩) := by
  induction sites with
  | nil => rfl
  | cons a rest ih =>
    have ha := hs a (List.mem_cons_self a rest)
    have hrest : ∀ s ∈ rest, (scoreSiteTextual input s).1 = 0 :=
      fun s hmem => hs s (List.mem_cons_of_mem a hmem)
    rw [List.filterMap_cons, List.filter_cons,
      siteCandidate_of_zero_score input did hd a ha]
    by_cases hid : (a.id == did) = true
    · simp [hid, ih hrest]
    · simp [hid, ih hrest]

/-- C6 counterexample.  A directory containing the configured default site
and an input matching nothing: `resolveSite` does return the default with
score 10, but its justification is " (default)" (appended by the
default-boost branch), which does not contain the string "Default". -/
theorem resolver_default_justification_counterexample :
    resolveSite [⟨"s1", some "alpha", none, none⟩] "zzz" (some "s1") =
      some ⟨⟨"s1", some "alpha", none, none⟩, 10, " (default)"⟩ ∧
    jsIncludes " (default)" "Default" = false := by
  constructor
  · have hm := filterMap_candidates_of_zero (jsToLower "zzz") "s1" (by decide)
      [⟨"s1", some "alpha", none, none⟩]
      (by
        intro s hsx
        rw [List.mem_singleton] at hsx
        subst hsx
        rfl)
    simp +decide [resolveSite, hm, sortByScoreDesc, insertByScoreDesc]
  · decide

/-- C6 as amended.  When the directory contains exactly one site with the
configured default ID and no site scores above 0 textually, `resolveSite`
returns that default site with score 10 and justification " (default)" —
which contains "default" (lowercase), not "Default". -/
theorem resolver_default_fallback (sites : List DocsSite) (input did : String) (d : DocsSite)
    (hd : did ≠ "")
    (hfilter : sites.filter (fun s => s.id == did) = [d])
    (hs : ∀ s ∈ sites, (scoreSiteTextual (jsToLower input) s).1 = 0) :
    resolveSite sites input (some did) = some ⟨d, 10, " (default)"⟩ ∧
    jsIncludes " (default)" "default" = true := by
  have hm := filterMap_candidates_of_zero (jsToLower input) did hd sites hs
  refine ⟨?_, by decide⟩
  simp [resolveSite, hm, hfilter, sortByScoreDesc, insertByScoreDesc]

/-- Witness for C6 (amended) at a concrete one-site directory. -/
theorem resolver_default_fallback_witness :
    resolveSite [⟨"s1", some "alpha", none, none⟩] "zzz" (some "s1") =
      some ⟨⟨"s1", some "alpha", none, none⟩, 10, " (default)"⟩ ∧
    jsIncludes " (default)" "default" = true :=
  resolver_default_fallback [⟨"s1", some "alpha", none, none⟩] "zzz" "s1"
    ⟨"s1", some "alpha", none, none⟩ (by decide) (by decide)
    (by
      intro s hsx
      rw [List.mem_singleton] at hsx
      subst hsx
      rfl)

/-- C7 counterexample.  The collection "My Go" scored against input
"go zz": no higher-priority branch fires, and the implemented partial
match scores 25 — the length-2 word "go" participates — while the claimed
rule (only words of length > 2 participate) yields 0. -/
theorem token_overlap_length_filter_counterexample :
    scoreCollectionTextual "go zz" ⟨"s1", none, none, none⟩ ⟨"c1", "s1", "My Go", none⟩ =
      (25, "Partial match: go") ∧
    specTokenOverlapScore (jsSplitWs (jsToLower "My Go")) (jsSplitWs "go zz") = 0 ∧
    (25 : ℚ) ≠ 0 := by
  refine ⟨?_, ?_, by norm_num⟩
  · have hw : wordsMatching (jsSplitWs (jsToLower "My Go")) (jsSplitWs "go zz") = ["go"] := rfl
    have hl : (jsSplitWs (jsToLower "My Go")).length = 2 := rfl
    simp +decide [scoreCollectionTextual, hw, hl]
    norm_num
  · have hw2 : wordsMatching ((jsSplitWs (jsToLower "My Go")).filter (fun w => w.length > 2))
        (jsSplitWs "go zz") = [] := rfl
    have hf : (jsSplitWs (jsToLower "My Go")).filter (fun w => w.length > 2) = [] := rfl
    simp [specTokenOverlapScore, hw2, hf]

/-- C7 as amended.  When no higher-priority branch fires, the site scorer
implements exactly the claimed rule — words longer than 2 characters from
name and hyphen/underscore-split subdomain, score matching / total × 50
(denominator clamped to at least 1) — but the collection scorer applies no
length filter: every word of the collection name participates, and the
denominator is the unfiltered word count. -/
theorem token_overlap_scoring (normInput : String) (site : DocsSite) (coll : DocsCollection)
    (hs1 : (optTruthy site.name && jsIncludes normInput (jsToLower (site.name.getD ""))) = false)
    (hs2 : (optTruthy site.subdomain &&
      jsIncludes normInput (jsToLower (site.subdomain.getD ""))) = false)
    (hs3 : (optTruthy site.cname && jsIncludes normInput (jsToLower (site.cname.getD ""))) = false)
    (hc1 : jsIncludes normInput (jsToLower coll.name) = false)
    (hc4 : (optTruthy coll.slug && jsIncludes normInput (jsToLower (coll.slug.getD ""))) = false) :
    (scoreSiteTextual normInput site).1 =
      specTokenOverlapScore (siteRawWords site) (jsSplitWs normInput) ∧
    (scoreCollectionTextual normInput site coll).1 =
      ((wordsMatching (jsSplitWs (jsToLower coll.name)) (jsSplitWs normInput)).length : ℚ) /
        ((jsSplitWs (jsToLower coll.name)).length : ℚ) * 50 := by
  constructor
  · have hws : (siteRawWords site).filter (fun w => w.length > 2) = siteWordsOf site := rfl
    by_cases hm : (wordsMatching (siteWordsOf site) (jsSplitWs normInput)).length > 0
    · have hle : (wordsMatching (siteWordsOf site) (jsSplitWs normInput)).length ≤
          (siteWordsOf site).length := List.length_filter_le _ _
      have hmax : max (siteWordsOf site).length 1 = (siteWordsOf site).length := by omega
      simp [scoreSiteTextual, specTokenOverlapScore, hs1, hs2, hs3, hm, hws, hmax]
    · have hz : (wordsMatching (siteWordsOf site) (jsSplitWs normInput)).length = 0 := by omega
      simp [scoreSiteTextual, specTokenOverlapScore, hs1, hs2, hs3, hm, hws, hz]
  · by_cases hm : (wordsMatching (jsSplitWs (jsToLower coll.name)) (jsSplitWs normInput)).length > 0
    · simp [scoreCollectionTextual, hc1, hs1, hs2, hc4, hm]
    · have hz : (wordsMatching (jsSplitWs (jsToLower coll.name)) (jsSplitWs normInput)).length = 0 := by
        omega
      simp [scoreCollectionTextual, hc1, hs1, hs2, hc4, hm, hz]

/-- Witness for C7 at the concrete counterexample inputs. -/
theorem token_overlap_scoring_witness :
    (scoreSiteTextual "go zz" ⟨"s1", none, none, none⟩).1 =
      specTokenOverlapScore (siteRawWords ⟨"s1", none, none, none⟩) (jsSplitWs "go zz") ∧
    (scoreCollectionTextual "go zz" ⟨"s1", none, none, none⟩ ⟨"c1", "s1", "My Go", none⟩).1 =
      ((wordsMatching (jsSplitWs (jsToLower "My Go")) (jsSplitWs "go zz")).length : ℚ) /
        ((jsSplitWs (jsToLower "My Go")).length : ℚ) * 50 :=
  token_overlap_scoring "go zz" ⟨"s1", none, none, none⟩ ⟨"c1", "s1", "My Go", none⟩
    (by decide) (by decide) (by decide) (by decide) (by decide)

/-- C8.  `getReport` unwraps a present `report` field and returns its
value; the bare string "Unknown URL" — and any string containing the
marker "Unknown" — raises the endpoint-not-found error naming the
endpoint; any other bare string raises the unexpected-shape error. -/
theorem getReport_unwraps_and_raises (endpoint s t : String)
    (fs : List (String × JsonVal)) (v : JsonVal)
    (hv : lookupField fs "report" = some v)
    (hu : jsIncludes s "Unknown" = true)
    (hn : jsIncludes t "Unknown" = false) :
    getReport endpoint (.obj fs) = .ok v ∧
    getReport endpoint (.str "Unknown URL") =
      .error ("Reports API endpoint not found: " ++ endpoint) ∧
    getReport endpoint (.str s) =
      .error ("Reports API endpoint not found: " ++ endpoint) ∧
    getReport endpoint (.str t) =
      .error ("Unexpected string response from Reports API: " ++ t) := by
  have htne : (t == "Unknown URL") = false := by
    cases ht : t == "Unknown URL" with
    | false => rfl
    | true =>
      have : t = "Unknown URL" := by
        exact eq_of_beq ht
      rw [this] at hn
      exact absurd hn (by decide)
  refine ⟨?_, by simp [getReport], ?_, ?_⟩
  · simp [getReport, hv]
  · simp [getReport, hu]
  · simp [getReport, hn, htne]

/-- Witness for C8: the spec's own example payload, a marker-bearing
string, and an unrelated string. -/
theorem getReport_unwraps_and_raises_witness :
    getReport "/reports/docs" (.obj [("report", .obj [("totalConversations", .num 5)])]) =
      .ok (.obj [("totalConversations", .num 5)]) ∧
    getReport "/reports/docs" (.str "Unknown URL") =
      .error ("Reports API endpoint not found: " ++ "/reports/docs") ∧
    getReport "/reports/docs" (.str "Unknown route") =
      .error ("Reports API endpoint not found: " ++ "/reports/docs") ∧
    getReport "/reports/docs" (.str "oops") =
      .error ("Unexpected string response from Reports API: " ++ "oops") :=
  getReport_unwraps_and_raises "/reports/docs" "Unknown route" "oops"
    [("report", .obj [("totalConversations", .num 5)])] (.obj [("totalConversations", .num 5)])
    rfl rfl rfl
